import Mathlib

/-!
Shallow embedding of the book-sales-analytics repository:
the dashboard frontend (REST client wrappers, axios interceptors,
time-series normalization, time-range selection, chart-cell arithmetic),
the data generator / loader shell script (phase structure and the synthetic
sale generator), and the Redshift aggregate views it creates.

JavaScript/SQL values are modelled with Nat/Int/Rat; `Option` marks values
that may be JS `undefined`/`null` or SQL `NULL`; JS falsy checks are spelled
out at each site.
-/

/-- A JSON-ish parameter / body value as sent by the frontend clients. -/
inductive PVal
  | num (n : ℤ)
  | str (s : String)
  | bool (b : Bool)
deriving DecidableEq, Repr

/-- An HTTP request as assembled by the axios wrappers (baseURL '/api'
is common to every request and omitted; `path` is the part after it). -/
structure Request where
  method : String
  path : String
  params : List (String × PVal)
  body : List (String × PVal)
deriving DecidableEq, Repr

def getReq (path : String) (params : List (String × PVal)) : Request :=
  { method := "GET", path := path, params := params, body := [] }

def postReq (path : String) (body : List (String × PVal)) : Request :=
  { method := "POST", path := path, params := [], body := body }

/-! Request builders of `analyticsService` (the plain service in
optimizedAnalyticsService.js, second module). A JS parameter with a
default value is modelled as `Option`: `none` is a missing argument,
and the JS default is applied with `Option.getD`, as the source does. -/

def plainSummaryReq : Request := getReq "/analytics/summary/" []

def plainTimeSeriesReq (interval : Option String) (days : Option ℤ) : Request :=
  getReq "/analytics/timeseries/"
    [("interval", .str (interval.getD "day")), ("days", .num (days.getD 30))]

def plainTopBooksReq (limit : Option ℤ) (days : Option ℤ) : Request :=
  getReq "/analytics/top-books/"
    [("limit", .num (limit.getD 10)), ("days", .num (days.getD 30))]

def plainSalesByRegionReq (days : Option ℤ) : Request :=
  getReq "/analytics/sales-by-region/" [("days", .num (days.getD 30))]

def plainSalesByGenreReq (days : Option ℤ) : Request :=
  getReq "/analytics/sales-by-genre/" [("days", .num (days.getD 30))]

def plainGenerateTestDataReq (numBooks numSales : Option ℤ) (skipRedshift : Option Bool) : Request :=
  postReq "/analytics/generate-test-data/"
    [("num_books", .num (numBooks.getD 500)),
     ("num_sales", .num (numSales.getD 10000)),
     ("skip_redshift", .bool (skipRedshift.getD false))]

/-! Request builders of `optimizedAnalyticsService` (first module of the
same file). Only the time-series operation differs: a distinct path and
interval default 'auto'. -/

def optSummaryReq : Request := getReq "/analytics/summary/" []

def optTimeSeriesReq (interval : Option String) (days : Option ℤ) : Request :=
  getReq "/analytics/optimized-timeseries/"
    [("interval", .str (interval.getD "auto")), ("days", .num (days.getD 30))]

def optTopBooksReq (limit : Option ℤ) (days : Option ℤ) : Request :=
  getReq "/analytics/top-books/"
    [("limit", .num (limit.getD 10)), ("days", .num (days.getD 30))]

def optSalesByRegionReq (days : Option ℤ) : Request :=
  getReq "/analytics/sales-by-region/" [("days", .num (days.getD 30))]

def optSalesByGenreReq (days : Option ℤ) : Request :=
  getReq "/analytics/sales-by-genre/" [("days", .num (days.getD 30))]

def optGenerateTestDataReq (numBooks numSales : Option ℤ) (skipRedshift : Option Bool) : Request :=
  postReq "/analytics/generate-test-data/"
    [("num_books", .num (numBooks.getD 500)),
     ("num_sales", .num (numSales.getD 10000)),
     ("skip_redshift", .bool (skipRedshift.getD false))]

/-- The `processing_info` object attached by the optimized service's
response interceptor. -/
structure ProcInfo where
  processing_time_ms : ℤ
  cached : Bool
deriving DecidableEq, Repr

/-- The body (`response.data`) of an HTTP response. `falsy` stands for a
JS-falsy body (axios yields '' for an empty body, or null); `obj` is a
truthy object with its `processing_info` field singled out (`none` =
field absent or JS-falsy there). -/
inductive RespData
  | falsy
  | obj (rest : List (String × PVal)) (pinfo : Option ProcInfo)
deriving DecidableEq, Repr

/-- An HTTP response as seen by the wrappers (only `data` is consumed). -/
structure Resp where
  data : RespData
deriving DecidableEq, Repr

/-- A rejected request (axios error object). -/
structure HttpErr where
  code : ℤ
  msg : String
deriving DecidableEq, Repr

/-- The transport underneath a wrapper operation: the axios instance
after its interceptors, mapping a request to a response or an error. -/
def Transport := Request → Except HttpErr Resp

/-- What one wrapper call produced: its result, the requests it issued
on the transport, and the console.error messages it logged. -/
structure OpOutcome where
  result : Except HttpErr RespData
  issued : List Request
  logged : List String
deriving Repr

/-- The shared try/catch shape of every wrapper operation: await the one
request; on success return `response.data`; on rejection log the
operation's message and rethrow the error unchanged. -/
def runOp (t : Transport) (logMsg : String) (req : Request) : OpOutcome :=
  match t req with
  | .ok r => { result := .ok r.data, issued := [req], logged := [] }
  | .error e => { result := .error e, issued := [req], logged := [logMsg] }

/-! The six operations of each service, as in the source. -/

def plainGetDashboardSummary (t : Transport) : OpOutcome :=
  runOp t "Error fetching dashboard summary:" plainSummaryReq

def plainGetSalesTimeSeries (t : Transport) (interval : Option String) (days : Option ℤ) : OpOutcome :=
  runOp t "Error fetching sales time series:" (plainTimeSeriesReq interval days)

def plainGetTopBooks (t : Transport) (limit days : Option ℤ) : OpOutcome :=
  runOp t "Error fetching top books:" (plainTopBooksReq limit days)

def plainGetSalesByRegion (t : Transport) (days : Option ℤ) : OpOutcome :=
  runOp t "Error fetching sales by region:" (plainSalesByRegionReq days)

def plainGetSalesByGenre (t : Transport) (days : Option ℤ) : OpOutcome :=
  runOp t "Error fetching sales by genre:" (plainSalesByGenreReq days)

def plainGenerateTestData (t : Transport) (numBooks numSales : Option ℤ) (skipRedshift : Option Bool) : OpOutcome :=
  runOp t "Error generating test data:" (plainGenerateTestDataReq numBooks numSales skipRedshift)

def optGetDashboardSummary (t : Transport) : OpOutcome :=
  runOp t "Error fetching dashboard summary:" optSummaryReq

def optGetSalesTimeSeries (t : Transport) (interval : Option String) (days : Option ℤ) : OpOutcome :=
  runOp t "Error fetching sales time series:" (optTimeSeriesReq interval days)

def optGetTopBooks (t : Transport) (limit days : Option ℤ) : OpOutcome :=
  runOp t "Error fetching top books:" (optTopBooksReq limit days)

def optGetSalesByRegion (t : Transport) (days : Option ℤ) : OpOutcome :=
  runOp t "Error fetching sales by region:" (optSalesByRegionReq days)

def optGetSalesByGenre (t : Transport) (days : Option ℤ) : OpOutcome :=
  runOp t "Error fetching sales by genre:" (optSalesByGenreReq days)

def optGenerateTestData (t : Transport) (numBooks numSales : Option ℤ) (skipRedshift : Option Bool) : OpOutcome :=
  runOp t "Error generating test data:" (optGenerateTestDataReq numBooks numSales skipRedshift)

/-- The contract the repository's spec ascribes to a wrapper operation:
it issues exactly its one request, returns the body on success, and on
rejection logs once and rethrows the original error unchanged. -/
def opFollowsContract (op : Transport → OpOutcome) (req : Request) (logMsg : String) : Prop :=
  ∀ t : Transport,
    (op t).issued = [req] ∧
    (∀ r, t req = .ok r → (op t).result = .ok r.data ∧ (op t).logged = []) ∧
    (∀ e, t req = .error e → (op t).result = .error e ∧ (op t).logged = [logMsg])

/-! Axios interceptors (optimizedAnalyticsService.js).

The request interceptor of both axios instances reads
`localStorage.getItem('authToken')` (a string, or null when the key is
absent) and sets `config.headers.Authorization` only when the value is
JS-truthy, i.e. non-null and non-empty. -/

/-- An axios request config: the Authorization header singled out; `rest`
abstracts every other part of the config, which the interceptor never
touches. -/
structure AxConfig (α : Type) where
  authorization : Option String
  rest : α
deriving DecidableEq, Repr

/-- The auth request interceptor shared verbatim by both service modules:
`const token = localStorage.getItem('authToken'); if (token) {...}`. -/
def authRequestInterceptor {α : Type} (stored : Option String) (config : AxConfig α) : AxConfig α :=
  match stored with
  | some token => if token ≠ "" then { config with authorization := some ("Bearer " ++ token) } else config
  | none => config

/-- The optimized service's response timing interceptor body:
`if (response.data && !response.data.processing_info) { attach }`.
`startTime`/`endTime` are the Date values recorded by the timing request
interceptor and at response arrival, in ms. -/
def addTimingInfo (startTime endTime : ℤ) : RespData → RespData
  | .falsy => .falsy
  | .obj rest none =>
      .obj rest (some { processing_time_ms := endTime - startTime, cached := false })
  | .obj rest (some pi) => .obj rest (some pi)

/-- Whether a response body carries a (truthy) `processing_info` field. -/
def hasProcessingInfo : RespData → Bool
  | .obj _ (some _) => true
  | _ => false

/-- The optimized axios instance end to end: issue the request on the
transport; a fulfilled response passes through the timing response
interceptor, a rejected one is re-rejected unchanged. There is no cache
lookup: the transport is consulted on every call. -/
def timedRequest (t : Transport) (startTime endTime : ℤ) (req : Request) : Except HttpErr Resp :=
  match t req with
  | .ok r => .ok { data := addTimingInfo startTime endTime r.data }
  | .error e => .error e

/-! Time-series normalization (Dashboard.jsx fetchData and
DashboardOptimized.jsx fetchData; identical logic in both). -/

/-- A time-series API response body as the dashboards consume it: each
field may be absent (`none`), and an array element may itself be null. -/
structure TimeSeriesResponse where
  period : Option (List String)
  revenue : Option (List (Option ℚ))
  books_sold : Option (List (Option ℚ))
  num_sales : Option (List (Option ℚ))
deriving DecidableEq, Repr

/-- The JS access `field?.[index] || 0`: 0 when the array is absent, the
index is out of range, or the element is falsy (null; a numeric 0 also
maps to 0). -/
def jsIndexOrZero (field : Option (List (Option ℚ))) (i : ℕ) : ℚ :=
  match field with
  | none => 0
  | some l => (l.getD i none).getD 0

/-- One record of the `formattedTimeSeries` array fed to the charts. -/
structure ChartRecord where
  date : String
  revenue : ℚ
  books : ℚ
  sales : ℚ
deriving DecidableEq, Repr

/-- `timeSeries.period.map((date, index) => ({...}))` from both
dashboards' fetchData. -/
def formatTimeSeries (ts : TimeSeriesResponse) (periods : List String) : List ChartRecord :=
  periods.enum.map fun p =>
    { date := p.2,
      revenue := jsIndexOrZero ts.revenue p.1,
      books := jsIndexOrZero ts.books_sold p.1,
      sales := jsIndexOrZero ts.num_sales p.1 }

/-- The dashboards' guard `if (timeSeries && timeSeries.period) {...}
else { setTimeSeriesData([]) }`: `none` for the whole argument is a falsy
fetched value, `period = none` an absent/falsy period field. -/
def normalizeTimeSeries (fetched : Option TimeSeriesResponse) : List ChartRecord :=
  match fetched with
  | none => []
  | some ts =>
    match ts.period with
    | none => []
    | some periods => formatTimeSeries ts periods

/-! Time ranges and fetch effects (TimeRangeSelector.jsx,
OptimizedTimeRangeSelector.jsx, the two dashboard pages). -/

/-- The `ranges` array of TimeRangeSelector.jsx (option values). -/
def timeRangeValues : List ℤ := [7, 30, 90, 365]

/-- The `ranges` array of OptimizedTimeRangeSelector.jsx (option values). -/
def optTimeRangeValues : List ℤ := [7, 30, 90, 180, 365, 730]

/-- `useState(30)` in both dashboard pages. -/
def initialTimeRange : ℤ := 30

/-- The requests Dashboard.jsx's fetchData issues for a given selected
time range (Promise.allSettled of the four service calls). -/
def dashboardFetchRequests (timeRange : ℤ) : List Request :=
  [plainSummaryReq,
   plainTimeSeriesReq (some "day") (some timeRange),
   plainTopBooksReq (some 5) (some timeRange),
   plainSalesByGenreReq (some timeRange)]

/-- The requests DashboardOptimized.jsx's fetchData issues for a given
selected time range and interval mode (summary, then time series, then
the two lower-priority calls). -/
def optDashboardFetchRequests (intervalMode : String) (timeRange : ℤ) : List Request :=
  [optSummaryReq,
   optTimeSeriesReq (some intervalMode) (some timeRange),
   optTopBooksReq (some 5) (some timeRange),
   optSalesByGenreReq (some timeRange)]

/-- React's `useEffect(fetchData, [timeRange])` in Dashboard.jsx: the
effect re-runs exactly when the `timeRange` dependency changed between
renders, re-issuing the requests for the new value. -/
def dashboardEffectStep (prevRange currRange : ℤ) : List Request :=
  if currRange ≠ prevRange then dashboardFetchRequests currRange else []

/-- `useEffect(fetchData, [timeRange, intervalMode])` in
DashboardOptimized.jsx. -/
def optDashboardEffectStep (prevMode currMode : String) (prevRange currRange : ℤ) : List Request :=
  if currRange ≠ prevRange ∨ currMode ≠ prevMode then
    optDashboardFetchRequests currMode currRange
  else []

/-- The value of the request's `days` parameter, when it has one. -/
def daysParamOf (req : Request) : Option PVal :=
  (req.params.find? fun p => p.1 = "days").map Prod.snd

/-! Chart-cell arithmetic over fetched data (SalesByGenre.jsx,
SalesByRegion.jsx detail tables; DashboardOptimized.jsx reference line).
Division is modelled as the partial `jsDiv`, `none` marking an actual
division by zero, so a guard is correct iff `none` is unreachable. -/

/-- Division, undefined at a zero denominator. -/
def jsDiv (a b : ℚ) : Option ℚ := if b = 0 then none else some (a / b)

/-- SalesByGenre.jsx detail row:
`genre.books_sold > 0 ? genre.revenue / genre.books_sold : 0`.
`books_sold` may be absent from the fetched row (JS `undefined > 0` is
false, so the guard fails then). -/
def genreAvgRevenueCell (revenue : ℚ) (books_sold : Option ℤ) : Option ℚ :=
  if 0 < books_sold.getD 0 then jsDiv revenue (books_sold.getD 0 : ℤ) else some 0

/-- SalesByRegion.jsx detail row, the same guarded division. -/
def regionAvgRevenueCell (revenue : ℚ) (books_sold : Option ℤ) : Option ℚ :=
  if 0 < books_sold.getD 0 then jsDiv revenue (books_sold.getD 0 : ℤ) else some 0

/-- DashboardOptimized.jsx: `{timeSeriesData.length > 0 && <ReferenceLine
y={...reduce.../timeSeriesData.length}/>}`; `none` means the node is not
rendered at all, `some y` that it is rendered with computed value `y`. -/
def referenceLineNode (series : List ChartRecord) : Option (Option ℚ) :=
  if 0 < series.length then
    some (jsDiv ((series.map ChartRecord.revenue).sum) (series.length : ℚ))
  else none

/-! The generator / loader shell script (setup_analytics_data.sh):
control flow of its three phases. Observable warehouse-affecting steps
are recorded; each conditional mirrors a guard of the script. -/

/-- One observable step of the script. The Redshift schema SQL batch is
split into its three statement groups in the order they appear. -/
inductive ScriptStep
  | generateData
  | uploadBooks
  | uploadSales
  | dropTables
  | createTables
  | createViews
  | copyBooks
  | copySales
deriving DecidableEq, Repr

/-- The --skip-generate / --skip-upload / --skip-redshift flags. -/
structure ScriptOpts where
  skipGenerate : Bool
  skipUpload : Bool
  skipRedshift : Bool
deriving DecidableEq, Repr

/-- The script's environment: which local files and S3 objects exist and
which Redshift connections succeed. Failures of individual steps are
caught and logged by the script without altering the step sequence, so
only these guards shape the trace. -/
structure ScriptEnv where
  booksFileExists : Bool
  salesFileExists : Bool
  schemaConnOk : Bool
  loadConnOk : Bool
  booksInS3 : Bool
  salesInS3 : Bool
deriving DecidableEq, Repr

/-- Phase 1: `if [ "$SKIP_GENERATE" = false ]` runs the data-generation
python once. -/
def generatePhase (o : ScriptOpts) : List ScriptStep :=
  if o.skipGenerate then [] else [.generateData]

/-- Phase 2: `if [ "$SKIP_UPLOAD" = false ]` uploads books.csv then
sales.csv, each guarded by `os.path.exists`; `upload_to_s3` catches its
own exceptions and never retries. -/
def uploadPhase (o : ScriptOpts) (e : ScriptEnv) : List ScriptStep :=
  if o.skipUpload then []
  else
    (if e.booksFileExists then [.uploadBooks] else []) ++
    (if e.salesFileExists then [.uploadSales] else [])

/-- Phase 3: `if [ "$SKIP_REDSHIFT" = false ]` runs the schema python
(on a successful connection one SQL batch: DROP TABLE IF EXISTS, CREATE
TABLE, CREATE OR REPLACE VIEW), then the loader python (on a successful
connection one COPY per table, each attempted only if its S3 object
exists; a failed COPY is caught and the script moves on). The shell
never re-runs either python block, whatever their exit codes. -/
def redshiftPhase (o : ScriptOpts) (e : ScriptEnv) : List ScriptStep :=
  if o.skipRedshift then []
  else
    (if e.schemaConnOk then [.dropTables, .createTables, .createViews] else []) ++
    (if e.loadConnOk then
      (if e.booksInS3 then [.copyBooks] else []) ++
      (if e.salesInS3 then [.copySales] else [])
    else [])

/-- One invocation of the script: the three phases in their fixed
textual order. -/
def scriptTrace (o : ScriptOpts) (e : ScriptEnv) : List ScriptStep :=
  generatePhase o ++ uploadPhase o e ++ redshiftPhase o e

/-- The full step sequence of an unskipped, fully successful run. -/
def fullScriptOrder : List ScriptStep :=
  [.generateData, .uploadBooks, .uploadSales,
   .dropTables, .createTables, .createViews, .copyBooks, .copySales]

/-! The synthetic data generator (python heredoc of
setup_analytics_data.sh): the sale-record loop and the book price. -/

/-- Nearest-integer rounding with ties to even, python's
`round(Decimal, 2)` rounding mode (ROUND_HALF_EVEN) at integer scale. -/
def roundHalfEven (x : ℚ) : ℤ :=
  if x - ⌊x⌋ < 1 / 2 then ⌊x⌋
  else if 1 / 2 < x - ⌊x⌋ then ⌊x⌋ + 1
  else if ⌊x⌋ % 2 = 0 then ⌊x⌋ else ⌊x⌋ + 1

/-- python `round(x, 2)` on an exact decimal value. -/
def round2 (x : ℚ) : ℚ := (roundHalfEven (x * 100) : ℚ) / 100

/-- The `regions` list of the generator, verbatim. -/
def generatorRegions : List String :=
  ["North America", "South America", "Europe", "Asia", "Africa",
   "Australia", "Middle East", "Caribbean", "Central America", "Pacific"]

/-- The population of `random.choices([1, 2, 3, 4, 5], weights=...)`. -/
def quantityChoices : List ℤ := [1, 2, 3, 4, 5]

/-- A generated book, reduced to the fields the sale loop reads. The
generator sets `price = round(Decimal(random.uniform(4.99, 59.99)), 2)`. -/
structure GenBook where
  book_id : ℤ
  price : ℚ
deriving DecidableEq, Repr

/-- A generated sale record (one row of sales.csv). `sale_date` is in
seconds, as an offset-from-epoch integer. -/
structure GenSale where
  sale_id : ℤ
  book_id : ℤ
  quantity : ℤ
  sale_date : ℤ
  customer_id : String
  region : String
  sale_amount : ℚ
deriving DecidableEq, Repr

/-- The random draws one loop iteration consumes.  `random.choices` and
`random.choice` return members of their populations, so those draws are
indices; `discountRoll` is `random.random()` and `discountRaw` the
`random.uniform(0.1, 0.4)` value (consulted only when the roll hits). -/
structure SaleDraw where
  qIdx : Fin 5
  dateOffset : ℕ
  customerUuid : String
  regionIdx : Fin 10
  discountRoll : ℚ
  discountRaw : ℚ
deriving DecidableEq, Repr

/-- Number of seconds in the generator's sale-date window:
`timedelta(days=730)`. -/
def saleWindowSecs : ℕ := 730 * 86400

/-- One iteration of the sales loop: `genTime` is `datetime.now()` in
epoch seconds, `book` the `random.choice(books)` result. -/
def genSale (genTime : ℤ) (saleId : ℤ) (book : GenBook) (d : SaleDraw) : GenSale :=
  { sale_id := saleId,
    book_id := book.book_id,
    quantity := quantityChoices.getD d.qIdx.val 1,
    sale_date := genTime - (d.dateOffset : ℤ),
    customer_id := d.customerUuid,
    region := generatorRegions.getD d.regionIdx.val "",
    sale_amount :=
      if d.discountRoll < 3 / 10 then
        round2 (book.price * (quantityChoices.getD d.qIdx.val 1) * (1 - d.discountRaw))
      else
        round2 (book.price * (quantityChoices.getD d.qIdx.val 1)) }

/-! The Redshift warehouse model (setup_analytics_data.sh SQL batch):
`analytics.dim_book`, `analytics.fact_sales`, and the five aggregate
views. SQL GROUP BY is embedded as a fold that files each row under its
key; ORDER BY clauses only order the presentation and are not modelled. -/

/-- A TIMESTAMP value, split so DATE_TRUNC is a projection. -/
structure SqlTimestamp where
  year : ℤ
  month : ℤ
  day : ℤ
  secondOfDay : ℤ
deriving DecidableEq, Repr

/-- `DATE_TRUNC('day', sale_date)::DATE`. -/
def truncDay (t : SqlTimestamp) : ℤ × ℤ × ℤ := (t.year, t.month, t.day)

/-- `DATE_TRUNC('month', sale_date)::DATE`. -/
def truncMonth (t : SqlTimestamp) : ℤ × ℤ := (t.year, t.month)

/-- A row of `analytics.fact_sales`. -/
structure FactSale where
  sale_id : ℤ
  book_id : ℤ
  quantity : ℤ
  sale_date : SqlTimestamp
  customer_id : String
  region : String
  sale_amount : ℚ
deriving DecidableEq, Repr

/-- A row of `analytics.dim_book` (fields the views read). -/
structure DimBook where
  book_id : ℤ
  title : String
  author : String
  genre : String
deriving DecidableEq, Repr

/-- File `r` under key `k` in a group list: append to `k`'s group if it
exists, else open a new group at the end. -/
def addToGroup {κ α : Type} [DecidableEq κ] (k : κ) (r : α) :
    List (κ × List α) → List (κ × List α)
  | [] => [(k, [r])]
  | (k', g) :: rest =>
      if k = k' then (k', r :: g) :: rest else (k', g) :: addToGroup k r rest

/-- GROUP BY: partition the rows by their key, keeping within-group row
order. -/
def groupRows {κ α : Type} [DecidableEq κ] (key : α → κ) : List α → List (κ × List α)
  | [] => []
  | r :: rs => addToGroup (key r) r (groupRows key rs)

/-- The group currently filed under `k`. -/
def lookupGroup {κ α : Type} [DecidableEq κ] (k : κ) : List (κ × List α) → List α
  | [] => []
  | (k', g) :: rest => if k = k' then g else lookupGroup k rest

/-- A row of `analytics.sales_by_day`. -/
structure DayRow where
  day : ℤ × ℤ × ℤ
  num_sales : ℤ
  total_books_sold : ℤ
  total_revenue : ℚ
deriving DecidableEq, Repr

def sales_by_day (facts : List FactSale) : List DayRow :=
  (groupRows (fun s => truncDay s.sale_date) facts).map fun g =>
    { day := g.1,
      num_sales := (g.2.length : ℤ),
      total_books_sold := (g.2.map FactSale.quantity).sum,
      total_revenue := (g.2.map FactSale.sale_amount).sum }

/-- A row of `analytics.sales_by_region`. -/
structure RegionRow where
  region : String
  total_revenue : ℚ
  transaction_count : ℤ
  books_sold : ℤ
deriving DecidableEq, Repr

def sales_by_region (facts : List FactSale) : List RegionRow :=
  (groupRows FactSale.region facts).map fun g =>
    { region := g.1,
      total_revenue := (g.2.map FactSale.sale_amount).sum,
      transaction_count := (g.2.length : ℤ),
      books_sold := (g.2.map FactSale.quantity).sum }

/-- A row of `analytics.monthly_sales`. -/
structure MonthRow where
  month : ℤ × ℤ
  num_sales : ℤ
  total_books_sold : ℤ
  total_revenue : ℚ
deriving DecidableEq, Repr

def monthly_sales (facts : List FactSale) : List MonthRow :=
  (groupRows (fun s => truncMonth s.sale_date) facts).map fun g =>
    { month := g.1,
      num_sales := (g.2.length : ℤ),
      total_books_sold := (g.2.map FactSale.quantity).sum,
      total_revenue := (g.2.map FactSale.sale_amount).sum }

/-- `FROM analytics.dim_book b JOIN analytics.fact_sales s ON
b.book_id = s.book_id`: every matching (book, sale) pair. -/
def joinBookSales (books : List DimBook) (facts : List FactSale) :
    List (DimBook × FactSale) :=
  books.flatMap fun b =>
    (facts.filter fun s => decide (s.book_id = b.book_id)).map fun s => (b, s)

/-- A row of `analytics.top_books`. COUNT(s.sale_id) counts the joined
rows, `sale_id` being NOT NULL in every loaded row. -/
structure TopBookRow where
  book_id : ℤ
  title : String
  author : String
  genre : String
  num_sales : ℤ
  total_quantity : ℤ
  total_revenue : ℚ
deriving DecidableEq, Repr

def top_books (books : List DimBook) (facts : List FactSale) : List TopBookRow :=
  (groupRows (fun p => (p.1.book_id, p.1.title, p.1.author, p.1.genre))
      (joinBookSales books facts)).map fun g =>
    { book_id := g.1.1,
      title := g.1.2.1,
      author := g.1.2.2.1,
      genre := g.1.2.2.2,
      num_sales := (g.2.length : ℤ),
      total_quantity := (g.2.map fun p => p.2.quantity).sum,
      total_revenue := (g.2.map fun p => p.2.sale_amount).sum }

/-- A row of `analytics.sales_by_genre`. -/
structure GenreRow where
  genre : String
  num_sales : ℤ
  total_quantity : ℤ
  total_revenue : ℚ
deriving DecidableEq, Repr

def sales_by_genre (books : List DimBook) (facts : List FactSale) : List GenreRow :=
  (groupRows (fun p => p.1.genre) (joinBookSales books facts)).map fun g =>
    { genre := g.1,
      num_sales := (g.2.length : ℤ),
      total_quantity := (g.2.map fun p => p.2.quantity).sum,
      total_revenue := (g.2.map fun p => p.2.sale_amount).sum }

/-- The fact_sales subset a `sales_by_day` group key selects. -/
def dayFilter (facts : List FactSale) (d : ℤ × ℤ × ℤ) : List FactSale :=
  facts.filter fun s => decide (truncDay s.sale_date = d)

/-- The fact_sales subset a `sales_by_region` group key selects. -/
def regionFilter (facts : List FactSale) (r : String) : List FactSale :=
  facts.filter fun s => decide (s.region = r)

/-- The fact_sales subset a `monthly_sales` group key selects. -/
def monthFilter (facts : List FactSale) (m : ℤ × ℤ) : List FactSale :=
  facts.filter fun s => decide (truncMonth s.sale_date = m)

/-- The fact_sales subset a `sales_by_genre` row aggregates: sales whose
book_id joins to an existing dim_book row of that genre. -/
def genreFilter (books : List DimBook) (facts : List FactSale) (g : String) : List FactSale :=
  facts.filter fun s =>
    books.any fun b => decide (b.genre = g) && decide (s.book_id = b.book_id)

/-- The fact_sales subset a `top_books` row aggregates: sales whose
book_id joins to an existing dim_book row with the row's key fields. -/
def topBookFilter (books : List DimBook) (facts : List FactSale)
    (k : ℤ × String × String × String) : List FactSale :=
  facts.filter fun s =>
    books.any fun b =>
      decide ((b.book_id, b.title, b.author, b.genre) = k) &&
      decide (s.book_id = b.book_id)

/-! Per-view correctness statements for the aggregate views: each row is
the COUNT of rows and SUMs of quantity and sale_amount over the
fact_sales subset its group key selects. -/

def salesByDaySpec (facts : List FactSale) : Prop :=
  ∀ row ∈ sales_by_day facts,
    row.num_sales = ((dayFilter facts row.day).length : ℤ) ∧
    row.total_books_sold = ((dayFilter facts row.day).map FactSale.quantity).sum ∧
    row.total_revenue = ((dayFilter facts row.day).map FactSale.sale_amount).sum

def salesByRegionSpec (facts : List FactSale) : Prop :=
  ∀ row ∈ sales_by_region facts,
    row.transaction_count = ((regionFilter facts row.region).length : ℤ) ∧
    row.books_sold = ((regionFilter facts row.region).map FactSale.quantity).sum ∧
    row.total_revenue = ((regionFilter facts row.region).map FactSale.sale_amount).sum

def monthlySalesSpec (facts : List FactSale) : Prop :=
  ∀ row ∈ monthly_sales facts,
    row.num_sales = ((monthFilter facts row.month).length : ℤ) ∧
    row.total_books_sold = ((monthFilter facts row.month).map FactSale.quantity).sum ∧
    row.total_revenue = ((monthFilter facts row.month).map FactSale.sale_amount).sum

def salesByGenreSpec (books : List DimBook) (facts : List FactSale) : Prop :=
  ∀ row ∈ sales_by_genre books facts,
    row.num_sales = ((genreFilter books facts row.genre).length : ℤ) ∧
    row.total_quantity = ((genreFilter books facts row.genre).map FactSale.quantity).sum ∧
    row.total_revenue = ((genreFilter books facts row.genre).map FactSale.sale_amount).sum

def topBooksSpec (books : List DimBook) (facts : List FactSale) : Prop :=
  ∀ row ∈ top_books books facts,
    row.num_sales =
      ((topBookFilter books facts (row.book_id, row.title, row.author, row.genre)).length : ℤ) ∧
    row.total_quantity =
      ((topBookFilter books facts (row.book_id, row.title, row.author, row.genre)).map
        FactSale.quantity).sum ∧
    row.total_revenue =
      ((topBookFilter books facts (row.book_id, row.title, row.author, row.genre)).map
        FactSale.sale_amount).sum

/-- The value of a named query parameter of a request, when present. -/
def paramOf (req : Request) (name : String) : Option PVal :=
  (req.params.find? fun p => p.1 = name).map Prod.snd

/-- The properties claimed of one generated sale record. -/
def genSaleSpec (genTime saleId : ℤ) (book : GenBook) (d : SaleDraw) : Prop :=
  (genSale genTime saleId book d).quantity ∈ quantityChoices ∧
  genTime - (saleWindowSecs : ℤ) ≤ (genSale genTime saleId book d).sale_date ∧
  (genSale genTime saleId book d).sale_date ≤ genTime ∧
  (genSale genTime saleId book d).region ∈ generatorRegions ∧
  generatorRegions.length = 10 ∧
  (genSale genTime saleId book d).customer_id = d.customerUuid ∧
  (∃ disc : ℚ, (disc = 0 ∨ (1 / 10 ≤ disc ∧ disc ≤ 2 / 5)) ∧
    (genSale genTime saleId book d).sale_amount =
      round2 (book.price * ((genSale genTime saleId book d).quantity : ℚ) * (1 - disc))) ∧
  (genSale genTime saleId book d).sale_amount ≤
    book.price * ((genSale genTime saleId book d).quantity : ℚ)

/-! Small concrete inputs used to evaluate the embedded code. -/

def tsSample : TimeSeriesResponse :=
  { period := some ["2024-01-01", "2024-01-02"],
    revenue := some [some 5, none],
    books_sold := none,
    num_sales := some [some 2, some 3] }

def chartRecSample : ChartRecord :=
  { date := "2024-01-01", revenue := 4, books := 0, sales := 0 }

def booksSample : List DimBook :=
  [{ book_id := 1, title := "T1", author := "A1", genre := "Fiction" },
   { book_id := 2, title := "T2", author := "A2", genre := "Mystery" }]

def factsSample : List FactSale :=
  [{ sale_id := 1, book_id := 1, quantity := 2, sale_date := ⟨2024, 1, 1, 60⟩,
     customer_id := "c1", region := "Europe", sale_amount := 10 },
   { sale_id := 2, book_id := 1, quantity := 1, sale_date := ⟨2024, 1, 1, 90⟩,
     customer_id := "c2", region := "Asia", sale_amount := 7 },
   { sale_id := 3, book_id := 2, quantity := 3, sale_date := ⟨2024, 1, 2, 5⟩,
     customer_id := "c3", region := "Europe", sale_amount := 30 }]

def genBookSample : GenBook := { book_id := 1, price := round2 (999 / 100) }

def saleDrawSample : SaleDraw :=
  { qIdx := 1, dateOffset := 3600, customerUuid := "4f2c0b1e",
    regionIdx := 2, discountRoll := 1 / 2, discountRaw := 1 / 5 }

def transportOk : Transport := fun _ => .ok { data := RespData.obj [] none }

def transportErr : Transport := fun _ => .error { code := 500, msg := "network" }

/-! Lemmas about the GROUP BY embedding. -/

theorem lookupGroup_addToGroup {κ α : Type} [DecidableEq κ] (l : List (κ × List α))
    (k k' : κ) (r : α) :
    lookupGroup k (addToGroup k' r l) =
      if k = k' then r :: lookupGroup k l else lookupGroup k l := by
  induction l with
  | nil => by_cases h : k = k' <;> simp [addToGroup, lookupGroup, h]
  | cons p rest ih =>
    obtain ⟨k'', g⟩ := p
    by_cases h1 : k' = k'' <;> by_cases h2 : k = k''
    · subst h1; subst h2; simp [addToGroup, lookupGroup]
    · subst h1
      simp [addToGroup, lookupGroup, h2]
    · subst h2
      simp [addToGroup, lookupGroup, h1, Ne.symm h1]
    · simp [addToGroup, lookupGroup, h1, h2, ih]

theorem lookupGroup_groupRows {κ α : Type} [DecidableEq κ] (key : α → κ)
    (rows : List α) (k : κ) :
    lookupGroup k (groupRows key rows) = rows.filter fun r => decide (key r = k) := by
  induction rows with
  | nil => simp [groupRows, lookupGroup]
  | cons r rs ih =>
    rw [groupRows, lookupGroup_addToGroup, ih]
    by_cases h : key r = k
    · simp [List.filter_cons, h]
    · simp [List.filter_cons, h, Ne.symm h]

theorem keys_addToGroup {κ α : Type} [DecidableEq κ] (l : List (κ × List α)) (k : κ) (r : α) :
    (addToGroup k r l).map Prod.fst =
      if k ∈ l.map Prod.fst then l.map Prod.fst else l.map Prod.fst ++ [k] := by
  induction l with
  | nil => simp [addToGroup]
  | cons p rest ih =>
    obtain ⟨k', g⟩ := p
    by_cases h : k = k'
    · subst h; simp [addToGroup]
    · simp [addToGroup, h, ih, Ne.symm h]
      by_cases hm : k ∈ rest.map Prod.fst <;> simp [hm, h]

theorem keysNodup_groupRows {κ α : Type} [DecidableEq κ] (key : α → κ) (rows : List α) :
    ((groupRows key rows).map Prod.fst).Nodup := by
  induction rows with
  | nil => simp [groupRows]
  | cons r rs ih =>
    rw [groupRows, keys_addToGroup]
    by_cases hm : key r ∈ (groupRows key rs).map Prod.fst
    · simpa [hm] using ih
    · simp only [hm, if_false]
      exact List.Nodup.append ih (List.nodup_singleton _) (by simpa using hm)

theorem lookupGroup_eq_of_mem {κ α : Type} [DecidableEq κ] {l : List (κ × List α)}
    (hn : (l.map Prod.fst).Nodup) {k : κ} {g : List α} (h : (k, g) ∈ l) :
    lookupGroup k l = g := by
  induction l with
  | nil => cases h
  | cons p rest ih =>
    obtain ⟨k', g'⟩ := p
    rw [List.map_cons, List.nodup_cons] at hn
    rcases List.mem_cons.mp h with heq | hmem
    · cases heq; simp [lookupGroup]
    · have hk : k ≠ k' := by
        rintro rfl
        exact hn.1 (List.mem_map.mpr ⟨(k, g), hmem, rfl⟩)
      simpa [lookupGroup, hk] using ih hn.2 hmem

theorem groupRows_mem_filter {κ α : Type} [DecidableEq κ] {key : α → κ} {rows : List α}
    {k : κ} {g : List α} (h : (k, g) ∈ groupRows key rows) :
    g = rows.filter fun r => decide (key r = k) := by
  rw [← lookupGroup_groupRows]
  exact (lookupGroup_eq_of_mem (keysNodup_groupRows key rows) h).symm

/-! Lemmas carrying a filtered join back to a filtered subset of the
fact table. -/

theorem filter_or_disjoint_perm {α : Type} (f g : α → Bool) (xs : List α)
    (hdis : ∀ x, ¬(f x = true ∧ g x = true)) :
    (xs.filter fun x => f x || g x).Perm (xs.filter f ++ xs.filter g) := by
  induction xs with
  | nil => simp
  | cons x xs ih =>
    by_cases hf : f x = true
    · have hg : ¬g x = true := fun hg => hdis x ⟨hf, hg⟩
      simpa [List.filter_cons, hf, hg] using ih.cons x
    · by_cases hg : g x = true
      · simp only [List.filter_cons, hf, hg]
        simp only [Bool.false_or, if_true, cond_true, cond_false]
        exact (ih.cons x).trans List.perm_middle.symm
      · simpa [List.filter_cons, hf, hg] using ih

theorem flatMap_filter_perm {α β : Type} (q : α → β → Bool) (bs : List β) (xs : List α)
    (hdis : bs.Pairwise fun b₁ b₂ => ∀ x, ¬(q x b₁ = true ∧ q x b₂ = true)) :
    (bs.flatMap fun b => xs.filter fun x => q x b).Perm
      (xs.filter fun x => bs.any fun b => q x b) := by
  induction bs with
  | nil => simp
  | cons b bs ih =>
    rw [List.pairwise_cons] at hdis
    have hd : ∀ x, ¬((q x b) = true ∧ (bs.any fun b' => q x b') = true) := by
      intro x ⟨hxb, hany⟩
      obtain ⟨b', hb', hqb'⟩ := List.any_eq_true.mp hany
      exact hdis.1 b' hb' x ⟨hxb, hqb'⟩
    have h1 : ((b :: bs).flatMap fun b => xs.filter fun x => q x b)
        = xs.filter (fun x => q x b) ++ bs.flatMap fun b => xs.filter fun x => q x b := by
      simp [List.flatMap_cons]
    have h2 : (xs.filter (fun x => q x b) ++ bs.flatMap fun b => xs.filter fun x => q x b).Perm
        (xs.filter (fun x => q x b) ++ xs.filter fun x => bs.any fun b' => q x b') :=
      (ih hdis.2).append_left _
    have h3 : (xs.filter fun x => (b :: bs).any fun b' => q x b').Perm
        (xs.filter (fun x => q x b) ++ xs.filter fun x => bs.any fun b' => q x b') := by
      simpa [List.any_cons] using filter_or_disjoint_perm _ _ xs hd
    rw [h1]
    exact h2.trans h3.symm

theorem joinBookSales_filter_fst (books : List DimBook) (facts : List FactSale)
    (pk : DimBook → Bool) :
    ((joinBookSales books facts).filter fun p => pk p.1) =
      (books.filter pk).flatMap fun b =>
        (facts.filter fun s => decide (s.book_id = b.book_id)).map fun s => (b, s) := by
  induction books with
  | nil => simp [joinBookSales]
  | cons b bs ih =>
    rw [joinBookSales, List.flatMap_cons, List.filter_append]
    rw [joinBookSales] at ih
    rw [List.filter_map]
    by_cases hb : pk b
    · have : ((fun p => pk p.1) ∘ (fun s : FactSale => (b, s))) = fun _ : FactSale => true := by
        funext s; simp [hb]
      rw [this, List.filter_true, List.filter_cons, ih]
      simp [hb, List.flatMap_cons]
    · have : ((fun p => pk p.1) ∘ (fun s : FactSale => (b, s))) = fun _ : FactSale => false := by
        funext s; simp [hb]
      rw [this, List.filter_false, List.filter_cons, ih]
      simp [hb]

theorem joined_filter_snd_perm (books : List DimBook) (facts : List FactSale)
    (pk : DimBook → Bool) (hb : (books.map DimBook.book_id).Nodup) :
    ((((joinBookSales books facts).filter fun p => pk p.1).map Prod.snd)).Perm
      (facts.filter fun s =>
        books.any fun b => pk b && decide (s.book_id = b.book_id)) := by
  rw [joinBookSales_filter_fst, List.map_flatMap]
  have hmaps : ∀ b : DimBook,
      ((facts.filter fun s => decide (s.book_id = b.book_id)).map (fun s => (b, s))).map
        Prod.snd = facts.filter fun s => decide (s.book_id = b.book_id) := by
    intro b; rw [List.map_map]; simp
  have hpair : (books.filter pk).Pairwise
      fun b₁ b₂ => ∀ s : FactSale,
        ¬(decide (s.book_id = b₁.book_id) = true ∧ decide (s.book_id = b₂.book_id) = true) := by
    have h1 : books.Pairwise fun b₁ b₂ => b₁.book_id ≠ b₂.book_id := by
      rw [List.Nodup, List.pairwise_map] at hb
      exact hb
    refine (h1.filter pk).imp ?_
    intro b₁ b₂ hne s ⟨hs1, hs2⟩
    exact hne ((of_decide_eq_true hs1).symm.trans (of_decide_eq_true hs2))
  have hperm := flatMap_filter_perm (fun (s : FactSale) b => decide (s.book_id = b.book_id))
    (books.filter pk) facts hpair
  simp only [List.any_filter] at hperm
  simpa [hmaps] using hperm

theorem salesByDay_correct (facts : List FactSale) : salesByDaySpec facts := by
  intro row hrow
  obtain ⟨⟨k, g⟩, hmem, rfl⟩ := List.mem_map.mp hrow
  have hg := groupRows_mem_filter hmem
  refine ⟨?_, ?_, ?_⟩ <;> simp [dayFilter, ← hg]

theorem salesByRegion_correct (facts : List FactSale) : salesByRegionSpec facts := by
  intro row hrow
  obtain ⟨⟨k, g⟩, hmem, rfl⟩ := List.mem_map.mp hrow
  have hg := groupRows_mem_filter hmem
  refine ⟨?_, ?_, ?_⟩ <;> simp [regionFilter, ← hg]

theorem monthlySales_correct (facts : List FactSale) : monthlySalesSpec facts := by
  intro row hrow
  obtain ⟨⟨k, g⟩, hmem, rfl⟩ := List.mem_map.mp hrow
  have hg := groupRows_mem_filter hmem
  refine ⟨?_, ?_, ?_⟩ <;> simp [monthFilter, ← hg]

theorem salesByGenre_correct (books : List DimBook) (facts : List FactSale)
    (hb : (books.map DimBook.book_id).Nodup) : salesByGenreSpec books facts := by
  intro row hrow
  obtain ⟨⟨k, g⟩, hmem, rfl⟩ := List.mem_map.mp hrow
  have hg := groupRows_mem_filter hmem
  have hperm : (g.map Prod.snd).Perm (genreFilter books facts k) := by
    rw [hg]
    exact joined_filter_snd_perm books facts (fun b => decide (b.genre = k)) hb
  refine ⟨?_, ?_, ?_⟩
  · have h1 : (g.map Prod.snd).length = g.length := by simp
    rw [← hperm.length_eq, h1]
  · have := (hperm.map FactSale.quantity).sum_eq
    simpa [List.map_map, Function.comp] using this
  · have := (hperm.map FactSale.sale_amount).sum_eq
    simpa [List.map_map, Function.comp] using this

theorem topBooks_correct (books : List DimBook) (facts : List FactSale)
    (hb : (books.map DimBook.book_id).Nodup) : topBooksSpec books facts := by
  intro row hrow
  obtain ⟨⟨k, g⟩, hmem, rfl⟩ := List.mem_map.mp hrow
  have hg := groupRows_mem_filter hmem
  have hperm : (g.map Prod.snd).Perm (topBookFilter books facts k) := by
    rw [hg]
    exact joined_filter_snd_perm books facts
      (fun b => decide ((b.book_id, b.title, b.author, b.genre) = k)) hb
  have hk : (k.1, k.2.1, k.2.2.1, k.2.2.2) = k := rfl
  refine ⟨?_, ?_, ?_⟩
  · simp only [hk]
    have h1 : (g.map Prod.snd).length = g.length := by simp
    rw [← hperm.length_eq, h1]
  · simp only [hk]
    have := (hperm.map FactSale.quantity).sum_eq
    simpa [List.map_map, Function.comp] using this
  · simp only [hk]
    have := (hperm.map FactSale.sale_amount).sum_eq
    simpa [List.map_map, Function.comp] using this

/-! Lemmas about half-even rounding. -/

theorem roundHalfEven_le_int (x : ℚ) (m : ℤ) (h : x ≤ m) : roundHalfEven x ≤ m := by
  have hfl : ⌊x⌋ ≤ m := by simpa using Int.floor_le_floor h
  have hfl2 : ¬(x - ⌊x⌋ < 1 / 2) → ⌊x⌋ + 1 ≤ m := by
    intro h1
    push_neg at h1
    rcases lt_or_eq_of_le hfl with hlt | heq
    · omega
    · exfalso
      have hcast : ((⌊x⌋ : ℤ) : ℚ) = (m : ℚ) := by exact_mod_cast heq
      linarith
  unfold roundHalfEven
  split_ifs with h1 h2 h3
  · exact hfl
  · exact hfl2 h1
  · exact hfl
  · exact hfl2 h1

theorem roundHalfEven_intCast (n : ℤ) : roundHalfEven (n : ℚ) = n := by
  unfold roundHalfEven
  norm_num

theorem roundHalfEven_nonneg (x : ℚ) (h : 0 ≤ x) : 0 ≤ roundHalfEven x := by
  have hfl : (0 : ℤ) ≤ ⌊x⌋ := Int.floor_nonneg.mpr h
  unfold roundHalfEven
  split_ifs <;> omega

/-- `round2` never rounds up past a value that is itself a whole number
of cents. -/
theorem round2_le_cents (x : ℚ) (m : ℤ) (h : x ≤ (m : ℚ) / 100) :
    round2 x ≤ (m : ℚ) / 100 := by
  unfold round2
  have h100 : x * 100 ≤ (m : ℚ) := by linarith
  have := roundHalfEven_le_int (x * 100) m h100
  have hq : ((roundHalfEven (x * 100) : ℤ) : ℚ) ≤ (m : ℚ) := by exact_mod_cast this
  linarith

/-- `round2` fixes whole numbers of cents. -/
theorem round2_cents (m : ℤ) : round2 ((m : ℚ) / 100) = (m : ℚ) / 100 := by
  unfold round2
  have : (m : ℚ) / 100 * 100 = (m : ℚ) := by ring
  rw [this, roundHalfEven_intCast]

/-! The claims. -/

/-- Claim C1: for every time-series response whose body contains a
`period` array, the dashboards' normalization produces exactly one chart
record per element of `period`, pairing the i-th period value with the
i-th elements of `revenue`, `books_sold` and `num_sales` and
substituting 0 for anything missing or absent; a response without a
`period` field (or a falsy response) normalizes to the empty list. -/
theorem c1_normalization : ∀ fetched : Option TimeSeriesResponse,
    (∀ ts, fetched = some ts → ∀ ps, ts.period = some ps →
      (normalizeTimeSeries fetched).length = ps.length ∧
      ∀ i : ℕ, (normalizeTimeSeries fetched)[i]? =
        ps[i]?.map fun d =>
          { date := d,
            revenue := jsIndexOrZero ts.revenue i,
            books := jsIndexOrZero ts.books_sold i,
            sales := jsIndexOrZero ts.num_sales i }) ∧
    (∀ ts, fetched = some ts → ts.period = none → normalizeTimeSeries fetched = []) ∧
    (fetched = none → normalizeTimeSeries fetched = []) := by
  intro fetched
  refine ⟨?_, ?_, ?_⟩
  · rintro ts rfl ps hps
    constructor
    · simp [normalizeTimeSeries, hps, formatTimeSeries]
    · intro i
      simp only [normalizeTimeSeries, hps, formatTimeSeries, List.getElem?_map,
        List.getElem?_enum, Option.map_map]
      rfl
  · rintro ts rfl hps
    simp [normalizeTimeSeries, hps]
  · rintro rfl
    rfl

theorem c1_witness :
    tsSample.period = some ["2024-01-01", "2024-01-02"] ∧
    (normalizeTimeSeries (some tsSample)).length = 2 ∧
    (normalizeTimeSeries (some tsSample))[1]? =
      some { date := "2024-01-02", revenue := 0, books := 0, sales := 3 } := by
  have h := (c1_normalization (some tsSample)).1 tsSample rfl
    ["2024-01-01", "2024-01-02"] rfl
  refine ⟨rfl, by simpa using h.1, ?_⟩
  have h2 := h.2 1
  rw [h2]
  simp [jsIndexOrZero, tsSample]

/-- Claim C2: every aggregate view created by the load step
(sales_by_day, sales_by_region, sales_by_genre, top_books,
monthly_sales) is, for every contents of the fact table, equal per group
key to a COUNT of rows and SUMs of quantity and sale_amount over a
filtered subset of fact_sales rows — for the genre/top-books views the
subset of rows joining to an existing dim_book row (whose book_id is a
declared primary key, hence assumed duplicate-free). The views are pure
functions of the tables: no stored state, recomputable at any time. -/
theorem c2_views (books : List DimBook) (facts : List FactSale)
    (hb : (books.map DimBook.book_id).Nodup) :
    salesByDaySpec facts ∧ salesByRegionSpec facts ∧ monthlySalesSpec facts ∧
    salesByGenreSpec books facts ∧ topBooksSpec books facts :=
  ⟨salesByDay_correct facts, salesByRegion_correct facts, monthlySales_correct facts,
   salesByGenre_correct books facts hb, topBooks_correct books facts hb⟩

theorem c2_witness :
    (booksSample.map DimBook.book_id).Nodup ∧
    (salesByDaySpec factsSample ∧ salesByRegionSpec factsSample ∧
     monthlySalesSpec factsSample ∧ salesByGenreSpec booksSample factsSample ∧
     topBooksSpec booksSample factsSample) :=
  ⟨by decide, c2_views booksSample factsSample (by decide)⟩

/-- Claim C3: every invocation of the generator/loader script is a
single linear pass — generate, upload, then load — whose trace is a
subsequence of the fixed full order (so the order never varies and each
phase runs at most once, failures included: the trace is duplicate-free
in every environment, i.e. nothing is retried), and in the unskipped
fully successful run it is exactly that order: drop and recreate the
tables, then one COPY per table from empty. -/
theorem c3_script_phases :
    (∀ (sg su sr bf sf sc lc b3 s3 : Bool),
      (scriptTrace ⟨sg, su, sr⟩ ⟨bf, sf, sc, lc, b3, s3⟩).Sublist fullScriptOrder ∧
      (scriptTrace ⟨sg, su, sr⟩ ⟨bf, sf, sc, lc, b3, s3⟩).Nodup) ∧
    scriptTrace ⟨false, false, false⟩ ⟨true, true, true, true, true, true⟩ = fullScriptOrder := by
  constructor
  · intro sg su sr bf sf sc lc b3 s3
    cases sg <;> cases su <;> cases sr <;> cases bf <;> cases sf <;>
      cases sc <;> cases lc <;> cases b3 <;> cases s3 <;> exact ⟨by decide, by decide⟩
  · rfl

/-- Claim C4 counterexample: a successful response with a falsy body
(axios yields '' for an empty body) has no `processing_info` field, yet
the interceptor guard `response.data && !response.data.processing_info`
fails on it and nothing is attached — the claim requires
`processing_info = { processing_time_ms := 7, cached := false }` here. -/
theorem c4_counterexample :
    hasProcessingInfo RespData.falsy = false ∧
    addTimingInfo 0 7 RespData.falsy = RespData.falsy ∧
    hasProcessingInfo (addTimingInfo 0 7 RespData.falsy) = false :=
  ⟨rfl, rfl, rfl⟩

/-- Claim C4 (amended): the caching indication is purely a client-side
timestamp annotation: every successful response whose data is truthy and
lacks a `processing_info` field gets `processing_info` with
`processing_time_ms` equal to the elapsed time and `cached := false`;
a response whose data already contains `processing_info`, or whose data
is falsy, passes through with its data unchanged; and the client never
serves a response without issuing the request on the transport. -/
theorem c4_timing_interceptor :
    ∀ (s e : ℤ),
      (∀ rest, addTimingInfo s e (RespData.obj rest none) =
        RespData.obj rest (some { processing_time_ms := e - s, cached := false })) ∧
      (∀ rest pi, addTimingInfo s e (RespData.obj rest (some pi)) =
        RespData.obj rest (some pi)) ∧
      addTimingInfo s e RespData.falsy = RespData.falsy ∧
      (∀ (t : Transport) (req : Request),
        (∀ r, t req = .ok r →
          timedRequest t s e req = .ok { data := addTimingInfo s e r.data }) ∧
        (∀ err, t req = .error err → timedRequest t s e req = .error err)) := by
  intro s e
  refine ⟨fun rest => rfl, fun rest pi => rfl, rfl, fun t req => ⟨?_, ?_⟩⟩
  · intro r h
    simp [timedRequest, h]
  · intro err h
    simp [timedRequest, h]

theorem c4_witness :
    transportOk optSummaryReq = .ok { data := RespData.obj [] none } ∧
    timedRequest transportOk 0 7 optSummaryReq =
      .ok { data := RespData.obj [] (some { processing_time_ms := 7, cached := false }) } := by
  have h := ((c4_timing_interceptor 0 7).2.2.2 transportOk optSummaryReq).1
    { data := RespData.obj [] none } rfl
  refine ⟨rfl, ?_⟩
  rw [h]
  rfl

theorem runOp_contract (logMsg : String) (req : Request) :
    opFollowsContract (fun t => runOp t logMsg req) req logMsg := by
  intro t
  refine ⟨?_, ?_, ?_⟩
  · cases h : t req <;> simp [runOp, h]
  · intro r hr
    simp [runOp, hr]
  · intro e he
    simp [runOp, he]

/-- Claim C5: each of the six operations of the two REST client
wrappers issues exactly its one request on the transport; if the
request fulfills, the operation returns the response body; if it
rejects, the operation logs its console.error message and rethrows the
original error unchanged — no retry, no fallback value. -/
theorem c5_wrapper_contracts :
    opFollowsContract plainGetDashboardSummary plainSummaryReq
      "Error fetching dashboard summary:" ∧
    (∀ i d, opFollowsContract (fun t => plainGetSalesTimeSeries t i d)
      (plainTimeSeriesReq i d) "Error fetching sales time series:") ∧
    (∀ l d, opFollowsContract (fun t => plainGetTopBooks t l d)
      (plainTopBooksReq l d) "Error fetching top books:") ∧
    (∀ d, opFollowsContract (fun t => plainGetSalesByRegion t d)
      (plainSalesByRegionReq d) "Error fetching sales by region:") ∧
    (∀ d, opFollowsContract (fun t => plainGetSalesByGenre t d)
      (plainSalesByGenreReq d) "Error fetching sales by genre:") ∧
    (∀ nb ns sk, opFollowsContract (fun t => plainGenerateTestData t nb ns sk)
      (plainGenerateTestDataReq nb ns sk) "Error generating test data:") ∧
    opFollowsContract optGetDashboardSummary optSummaryReq
      "Error fetching dashboard summary:" ∧
    (∀ i d, opFollowsContract (fun t => optGetSalesTimeSeries t i d)
      (optTimeSeriesReq i d) "Error fetching sales time series:") ∧
    (∀ l d, opFollowsContract (fun t => optGetTopBooks t l d)
      (optTopBooksReq l d) "Error fetching top books:") ∧
    (∀ d, opFollowsContract (fun t => optGetSalesByRegion t d)
      (optSalesByRegionReq d) "Error fetching sales by region:") ∧
    (∀ d, opFollowsContract (fun t => optGetSalesByGenre t d)
      (optSalesByGenreReq d) "Error fetching sales by genre:") ∧
    (∀ nb ns sk, opFollowsContract (fun t => optGenerateTestData t nb ns sk)
      (optGenerateTestDataReq nb ns sk) "Error generating test data:") :=
  ⟨runOp_contract _ _, fun _ _ => runOp_contract _ _, fun _ _ => runOp_contract _ _,
   fun _ => runOp_contract _ _, fun _ => runOp_contract _ _,
   fun _ _ _ => runOp_contract _ _, runOp_contract _ _,
   fun _ _ => runOp_contract _ _, fun _ _ => runOp_contract _ _,
   fun _ => runOp_contract _ _, fun _ => runOp_contract _ _,
   fun _ _ _ => runOp_contract _ _⟩

theorem c5_witness :
    transportOk plainSummaryReq = .ok { data := RespData.obj [] none } ∧
    (plainGetDashboardSummary transportOk).result = .ok (RespData.obj [] none) ∧
    (plainGetDashboardSummary transportOk).logged = [] ∧
    transportErr plainSummaryReq = .error { code := 500, msg := "network" } ∧
    (plainGetDashboardSummary transportErr).result = .error { code := 500, msg := "network" } ∧
    (plainGetDashboardSummary transportErr).logged = ["Error fetching dashboard summary:"] := by
  have hok := (c5_wrapper_contracts.1 transportOk).2.1 { data := RespData.obj [] none } rfl
  have herr := (c5_wrapper_contracts.1 transportErr).2.2 { code := 500, msg := "network" } rfl
  exact ⟨rfl, hok.1, hok.2, rfl, herr.1, herr.2⟩

/-- Claim C6: every generated sale has quantity in {1,2,3,4,5}, a
timestamp within the 730 days before generation time, a region from the
fixed 10-element list, the freshly drawn UUID as customer identifier,
and sale_amount = round(price × quantity × (1 − disc), 2) with disc
either 0 or the drawn discount in [0.1, 0.4]; hence sale_amount never
exceeds price × quantity.  The hypotheses are the environment contracts:
the book's price came from `round(Decimal(random.uniform(4.99, 59.99)), 2)`,
the timestamp draw lies in the window, and `random.uniform(0.1, 0.4)`
lies in its range. -/
theorem c6_generator (genTime saleId : ℤ) (book : GenBook) (d : SaleDraw)
    (hprice : ∃ raw : ℚ, 499 / 100 ≤ raw ∧ raw ≤ 5999 / 100 ∧ book.price = round2 raw)
    (hoff : d.dateOffset ≤ saleWindowSecs)
    (hdisc : 1 / 10 ≤ d.discountRaw ∧ d.discountRaw ≤ 2 / 5) :
    genSaleSpec genTime saleId book d := by
  obtain ⟨raw, hr1, hr2, hpr⟩ := hprice
  have hqlt : d.qIdx.val < quantityChoices.length := d.qIdx.isLt
  have hqmem : quantityChoices.getD d.qIdx.val 1 ∈ quantityChoices := by
    rw [List.getD_eq_getElem _ _ hqlt]
    exact List.getElem_mem hqlt
  have hq15 : ∀ x ∈ quantityChoices, (1 : ℤ) ≤ x ∧ x ≤ 5 := by decide
  have hq1 := (hq15 _ hqmem).1
  have hrlt : d.regionIdx.val < generatorRegions.length := d.regionIdx.isLt
  have hrmem : generatorRegions.getD d.regionIdx.val "" ∈ generatorRegions := by
    rw [List.getD_eq_getElem _ _ hrlt]
    exact List.getElem_mem hrlt
  have hpq : (0 : ℚ) ≤ (quantityChoices.getD d.qIdx.val 1 : ℚ) := by
    exact_mod_cast le_trans (by norm_num) hq1
  have hp0 : (0 : ℤ) ≤ roundHalfEven (raw * 100) := by
    apply roundHalfEven_nonneg
    nlinarith
  have hpreq : book.price = ((roundHalfEven (raw * 100) : ℤ) : ℚ) / 100 := hpr
  have hpnn : (0 : ℚ) ≤ book.price := by
    rw [hpreq]
    positivity
  have hpq100 : book.price * (quantityChoices.getD d.qIdx.val 1 : ℚ) =
      ((roundHalfEven (raw * 100) * quantityChoices.getD d.qIdx.val 1 : ℤ) : ℚ) / 100 := by
    rw [hpreq]
    push_cast
    ring
  refine ⟨hqmem, ?_, ?_, hrmem, rfl, rfl, ?_, ?_⟩
  · show genTime - (saleWindowSecs : ℤ) ≤ genTime - (d.dateOffset : ℤ)
    have : (d.dateOffset : ℤ) ≤ (saleWindowSecs : ℤ) := by exact_mod_cast hoff
    omega
  · show genTime - (d.dateOffset : ℤ) ≤ genTime
    omega
  · by_cases hroll : d.discountRoll < 3 / 10
    · exact ⟨d.discountRaw, Or.inr hdisc, by simp [genSale, hroll]⟩
    · exact ⟨0, Or.inl rfl, by simp [genSale, hroll]⟩
  · show (if d.discountRoll < 3 / 10 then
        round2 (book.price * (quantityChoices.getD d.qIdx.val 1 : ℚ) * (1 - d.discountRaw))
      else round2 (book.price * (quantityChoices.getD d.qIdx.val 1 : ℚ))) ≤
      book.price * (quantityChoices.getD d.qIdx.val 1 : ℚ)
    by_cases hroll : d.discountRoll < 3 / 10
    · rw [if_pos hroll]
      have hle : book.price * (quantityChoices.getD d.qIdx.val 1 : ℚ) * (1 - d.discountRaw) ≤
          book.price * (quantityChoices.getD d.qIdx.val 1 : ℚ) :=
        mul_le_of_le_one_right (mul_nonneg hpnn hpq) (by linarith [hdisc.1])
      have := round2_le_cents _ _ (hpq100 ▸ hle)
      rw [hpq100]
      exact this
    · rw [if_neg hroll, hpq100, round2_cents]

theorem c6_witness :
    (∃ raw : ℚ, 499 / 100 ≤ raw ∧ raw ≤ 5999 / 100 ∧ genBookSample.price = round2 raw) ∧
    saleDrawSample.dateOffset ≤ saleWindowSecs ∧
    (1 / 10 ≤ saleDrawSample.discountRaw ∧ saleDrawSample.discountRaw ≤ 2 / 5) ∧
    genSaleSpec 1000000 1 genBookSample saleDrawSample :=
  ⟨⟨999 / 100, by norm_num, by norm_num, rfl⟩, by decide, ⟨by norm_num [saleDrawSample], by norm_num [saleDrawSample]⟩,
   c6_generator 1000000 1 genBookSample saleDrawSample
     ⟨999 / 100, by norm_num, by norm_num, rfl⟩ (by decide) ⟨by norm_num [saleDrawSample], by norm_num [saleDrawSample]⟩⟩

/-- Claim C7: the standard selector offers exactly 7, 30, 90 and 365
days and the optimized selector exactly 7, 30, 90, 180, 365 and 730,
with 30 the initial state; changing the selection re-runs the fetch
effect for the new value, and every issued request that takes a `days`
parameter uses the currently selected range as that parameter. -/
theorem c7_time_ranges :
    timeRangeValues = [7, 30, 90, 365] ∧
    optTimeRangeValues = [7, 30, 90, 180, 365, 730] ∧
    initialTimeRange = 30 ∧
    (∀ prev curr, curr ∈ timeRangeValues → curr ≠ prev →
      dashboardEffectStep prev curr = dashboardFetchRequests curr) ∧
    (∀ curr ∈ timeRangeValues, ∀ req ∈ dashboardFetchRequests curr,
      daysParamOf req = none ∨ daysParamOf req = some (.num curr)) ∧
    (∀ pm cm pr cr, cr ∈ optTimeRangeValues → cr ≠ pr →
      optDashboardEffectStep pm cm pr cr = optDashboardFetchRequests cm cr) ∧
    (∀ mode, ∀ cr ∈ optTimeRangeValues, ∀ req ∈ optDashboardFetchRequests mode cr,
      daysParamOf req = none ∨ daysParamOf req = some (.num cr)) := by
  refine ⟨rfl, rfl, rfl, ?_, ?_, ?_, ?_⟩
  · intro prev curr _ hne
    simp [dashboardEffectStep, hne]
  · intro curr _ req hreq
    simp only [dashboardFetchRequests, List.mem_cons, List.not_mem_nil, or_false] at hreq
    rcases hreq with rfl | rfl | rfl | rfl
    · left; rfl
    · right; rfl
    · right; rfl
    · right; rfl
  · intro pm cm pr cr _ hne
    simp [optDashboardEffectStep, hne]
  · intro mode cr _ req hreq
    simp only [optDashboardFetchRequests, List.mem_cons, List.not_mem_nil, or_false] at hreq
    rcases hreq with rfl | rfl | rfl | rfl
    · left; rfl
    · right; rfl
    · right; rfl
    · right; rfl

theorem c7_witness :
    (30 : ℤ) ∈ timeRangeValues ∧ (30 : ℤ) ≠ 7 ∧
    dashboardEffectStep 7 30 = dashboardFetchRequests 30 ∧
    daysParamOf (plainSalesByGenreReq (some 30)) = some (.num 30) := by
  refine ⟨by decide, by decide, c7_time_ranges.2.2.2.1 7 30 (by decide) (by decide), ?_⟩
  have h := c7_time_ranges.2.2.2.2.1 30 (by decide) (plainSalesByGenreReq (some 30))
    (by simp [dashboardFetchRequests])
  exact h.resolve_left (by simp [daysParamOf, plainSalesByGenreReq, getReq])

/-- Claim C8: each client exposes exactly one operation per described
aggregate — summary, time series (interval defaulting to 'day' in the
plain service and 'auto' in the optimized one, days defaulting to 30),
top-N books (limit defaulting to 10), sales by region, sales by genre —
each issuing a GET to its own distinct /api/analytics/... path with
those parameters. -/
theorem c8_api_surface :
    (plainSummaryReq.method = "GET" ∧ plainSummaryReq.path = "/analytics/summary/") ∧
    (∀ i d, (plainTimeSeriesReq i d).method = "GET" ∧
      (plainTimeSeriesReq i d).path = "/analytics/timeseries/" ∧
      paramOf (plainTimeSeriesReq i d) "interval" = some (.str (i.getD "day")) ∧
      paramOf (plainTimeSeriesReq i d) "days" = some (.num (d.getD 30))) ∧
    (∀ l d, (plainTopBooksReq l d).method = "GET" ∧
      (plainTopBooksReq l d).path = "/analytics/top-books/" ∧
      paramOf (plainTopBooksReq l d) "limit" = some (.num (l.getD 10)) ∧
      paramOf (plainTopBooksReq l d) "days" = some (.num (d.getD 30))) ∧
    (∀ d, (plainSalesByRegionReq d).method = "GET" ∧
      (plainSalesByRegionReq d).path = "/analytics/sales-by-region/" ∧
      paramOf (plainSalesByRegionReq d) "days" = some (.num (d.getD 30))) ∧
    (∀ d, (plainSalesByGenreReq d).method = "GET" ∧
      (plainSalesByGenreReq d).path = "/analytics/sales-by-genre/" ∧
      paramOf (plainSalesByGenreReq d) "days" = some (.num (d.getD 30))) ∧
    [plainSummaryReq.path, (plainTimeSeriesReq none none).path,
     (plainTopBooksReq none none).path, (plainSalesByRegionReq none).path,
     (plainSalesByGenreReq none).path].Nodup ∧
    (optSummaryReq.method = "GET" ∧ optSummaryReq.path = "/analytics/summary/") ∧
    (∀ i d, (optTimeSeriesReq i d).method = "GET" ∧
      (optTimeSeriesReq i d).path = "/analytics/optimized-timeseries/" ∧
      paramOf (optTimeSeriesReq i d) "interval" = some (.str (i.getD "auto")) ∧
      paramOf (optTimeSeriesReq i d) "days" = some (.num (d.getD 30))) ∧
    (∀ l d, (optTopBooksReq l d).method = "GET" ∧
      (optTopBooksReq l d).path = "/analytics/top-books/" ∧
      paramOf (optTopBooksReq l d) "limit" = some (.num (l.getD 10)) ∧
      paramOf (optTopBooksReq l d) "days" = some (.num (d.getD 30))) ∧
    (∀ d, (optSalesByRegionReq d).method = "GET" ∧
      (optSalesByRegionReq d).path = "/analytics/sales-by-region/" ∧
      paramOf (optSalesByRegionReq d) "days" = some (.num (d.getD 30))) ∧
    (∀ d, (optSalesByGenreReq d).method = "GET" ∧
      (optSalesByGenreReq d).path = "/analytics/sales-by-genre/" ∧
      paramOf (optSalesByGenreReq d) "days" = some (.num (d.getD 30))) ∧
    [optSummaryReq.path, (optTimeSeriesReq none none).path,
     (optTopBooksReq none none).path, (optSalesByRegionReq none).path,
     (optSalesByGenreReq none).path].Nodup := by
  exact ⟨⟨rfl, rfl⟩, fun i d => ⟨rfl, rfl, rfl, rfl⟩, fun l d => ⟨rfl, rfl, rfl, rfl⟩,
    fun d => ⟨rfl, rfl, rfl⟩, fun d => ⟨rfl, rfl, rfl⟩, by decide, ⟨rfl, rfl⟩,
    fun i d => ⟨rfl, rfl, rfl, rfl⟩, fun l d => ⟨rfl, rfl, rfl, rfl⟩,
    fun d => ⟨rfl, rfl, rfl⟩, fun d => ⟨rfl, rfl, rfl⟩, by decide⟩

/-- Claim C9: every division over fetched data in the dashboard pages is
guarded: the per-genre (and per-region) average revenue per book divides
only when books_sold > 0 and is 0 otherwise, and the average-revenue
reference line divides by the series length only when the series is
non-empty, so a division by zero (`jsDiv` returning `none`) is
unreachable for every response. -/
theorem c9_division_guards :
    (∀ (revenue : ℚ) (bs : Option ℤ), (genreAvgRevenueCell revenue bs).isSome = true) ∧
    (∀ (revenue : ℚ) (bs : Option ℤ), (regionAvgRevenueCell revenue bs).isSome = true) ∧
    (∀ (series : List ChartRecord) (y : Option ℚ),
      referenceLineNode series = some y → y.isSome = true) := by
  refine ⟨?_, ?_, ?_⟩
  · intro revenue bs
    unfold genreAvgRevenueCell
    split_ifs with h
    · simp [jsDiv, show ((bs.getD 0 : ℤ) : ℚ) ≠ 0 from Int.cast_ne_zero.mpr (ne_of_gt h)]
    · rfl
  · intro revenue bs
    unfold regionAvgRevenueCell
    split_ifs with h
    · simp [jsDiv, show ((bs.getD 0 : ℤ) : ℚ) ≠ 0 from Int.cast_ne_zero.mpr (ne_of_gt h)]
    · rfl
  · intro series y hy
    unfold referenceLineNode at hy
    split_ifs at hy with h
    · cases hy
      have hne : ((series.length : ℕ) : ℚ) ≠ 0 := by
        have h0 : series.length ≠ 0 := Nat.pos_iff_ne_zero.mp h
        exact_mod_cast h0
      simp [jsDiv, hne]

theorem c9_witness :
    referenceLineNode [chartRecSample] = some (jsDiv 4 1) ∧
    (jsDiv (4 : ℚ) 1).isSome = true := by
  have h1 : referenceLineNode [chartRecSample] = some (jsDiv 4 1) := by
    simp [referenceLineNode, chartRecSample]
  exact ⟨h1, c9_division_guards.2.2 [chartRecSample] (jsDiv 4 1) h1⟩

/-- Claim C10 counterexample: localStorage can contain an authToken
whose value is the empty string; `getItem` then returns '' which is
JS-falsy, so the interceptor attaches no Authorization header even
though the store contains an authToken — the claim requires the header
'Bearer ' ++ '' in that case. -/
theorem c10_counterexample :
    (some "" : Option String) ≠ none ∧
    authRequestInterceptor (some "")
        ({ authorization := none, rest := () } : AxConfig Unit) =
      { authorization := none, rest := () } := by
  exact ⟨by simp, rfl⟩

/-- Claim C10 (amended): every request carries an Authorization header
equal to 'Bearer ' followed by the stored authToken exactly when
localStorage contains a non-empty authToken, and is passed through
completely unchanged otherwise (no stored token, or an empty one); the
rest of the request configuration is never touched. -/
theorem c10_auth_header :
    ∀ (α : Type) (stored : Option String) (cfg : AxConfig α),
      (∀ token, stored = some token → token ≠ "" →
        authRequestInterceptor stored cfg =
          { cfg with authorization := some ("Bearer " ++ token) }) ∧
      (stored = none → authRequestInterceptor stored cfg = cfg) ∧
      (stored = some "" → authRequestInterceptor stored cfg = cfg) ∧
      (authRequestInterceptor stored cfg).rest = cfg.rest ∧
      (cfg.authorization = none →
        (((authRequestInterceptor stored cfg).authorization ≠ none) ↔
          ∃ token, stored = some token ∧ token ≠ "")) := by
  intro α stored cfg
  refine ⟨?_, ?_, ?_, ?_, ?_⟩
  · rintro token rfl hne
    simp [authRequestInterceptor, hne]
  · rintro rfl
    rfl
  · rintro rfl
    rfl
  · cases stored with
    | none => rfl
    | some token =>
      by_cases hne : token ≠ "" <;> simp [authRequestInterceptor, hne]
  · intro hnone
    cases stored with
    | none => simp [authRequestInterceptor, hnone]
    | some token =>
      by_cases hne : token ≠ ""
      · simp [authRequestInterceptor, hne]
      · push_neg at hne
        subst hne
        simp [authRequestInterceptor, hnone]

theorem c10_witness :
    ((some "tok" : Option String) = some "tok") ∧
    authRequestInterceptor (some "tok")
        ({ authorization := none, rest := () } : AxConfig Unit) =
      { authorization := some "Bearer tok", rest := () } :=
  ⟨rfl, (c10_auth_header Unit (some "tok") { authorization := none, rest := () }).1
    "tok" rfl (by simp)⟩
